import Mathlib

/-!
# aws-certificate-checker: the Lambda handler

A shallow embedding of `func/certificate_checker/main.go`:

```go
func handler(ctx context.Context) error {
	lc, _ := lambdacontext.FromContext(ctx)
	fmt.Printf("Hello %sn\n", lc.AwsRequestID)
	return nil
}
```

The handler calls three things that live in its dependencies and not in the
repository: `context.Context.Value`, `lambdacontext.FromContext` and
`fmt.Printf`.  Each is embedded below as far as the handler uses it, after the
Go standard library and `github.com/aws/aws-lambda-go/lambdacontext`.

Standard output is taken to be writable: the text of a run is the text that
`fmt.Printf` hands to the stream.  Go strings are kept as Lean strings; `%s`
copies its operand unchanged, so nothing depends on how a string is encoded.

A call of the handler either returns or panics.  The Lambda host
(`lambda.Start`) installs a `*LambdaContext` in every context it passes to the
handler; contexts without one reach the handler only from other callers.
-/

namespace CertificateChecker

/-! ## Data model (`lambdacontext`) -/

/-- The `lambdacontext.CognitoIdentity` struct. -/
structure CognitoIdentity where
  CognitoIdentityID : String
  CognitoIdentityPoolID : String
  deriving DecidableEq, Repr

/-- The `lambdacontext.ClientApplication` struct. -/
structure ClientApplication where
  InstallationID : String
  AppTitle : String
  AppVersionCode : String
  AppPackageName : String
  deriving DecidableEq, Repr

/-- The `lambdacontext.ClientContext` struct; the two Go maps are kept as
association lists. -/
structure ClientContext where
  Client : ClientApplication
  Env : List (String × String)
  Custom : List (String × String)
  deriving DecidableEq, Repr

/-- The `lambdacontext.LambdaContext` struct: the metadata of one invocation. -/
structure LambdaContext where
  AwsRequestID : String
  InvokedFunctionArn : String
  Identity : CognitoIdentity
  ClientContext : ClientContext
  deriving DecidableEq, Repr

/-! ## Contexts (`context`) -/

/-- Keys under which a context stores values.  `lambdaKey` is the unexported
`contextKey` of package `lambdacontext`; every other key is `other`. -/
inductive Key where
  | lambdaKey
  | other (name : String)
  deriving DecidableEq, Repr

/-- Values stored in a context.  `lambdaPtr p` is a value of dynamic type
`*LambdaContext`: `none` is the nil pointer, `some lc` points at `lc`.
`other` is a value of any other dynamic type. -/
inductive Value where
  | lambdaPtr (p : Option LambdaContext)
  | other (v : String)
  deriving DecidableEq, Repr

/-- A non-nil `context.Context`: `context.Background()`, or a context derived
from a parent by `context.WithValue` or `context.WithDeadline`. -/
inductive Context where
  | background
  | withValue (parent : Context) (key : Key) (val : Value)
  | withDeadline (parent : Context) (unixMillis : Int)
  deriving DecidableEq, Repr

/-- The method `ctx.Value(key)`: the value of the innermost `WithValue` for
`key`, and `none` (the nil interface) when there is none. -/
def Context.Value : Context → Key → Option Value
  | .background, _ => none
  | .withValue parent k v, key => if k = key then some v else parent.Value key
  | .withDeadline parent _, key => parent.Value key

/-- The function `lambdacontext.NewContext(parent, lc)`. -/
def NewContext (parent : Context) (lc : Option LambdaContext) : Context :=
  .withValue parent .lambdaKey (.lambdaPtr lc)

/-! ## Run-time failures -/

/-- A Go run-time panic. -/
inductive Panic where
  | nilDereference
  deriving DecidableEq, Repr

deriving instance DecidableEq for Except

/-- The function `lambdacontext.FromContext(ctx)`:

```go
func FromContext(ctx context.Context) (*LambdaContext, bool) {
	lc, ok := ctx.Value(contextKey).(*LambdaContext)
	return lc, ok
}
```

The argument is `none` for the nil interface, on which the method call
`ctx.Value` panics.  The type assertion yields the stored pointer and `true`
when the value has dynamic type `*LambdaContext`, and the nil pointer and
`false` otherwise. -/
def FromContext : Option Context → Except Panic (Option LambdaContext × Bool)
  | none => .error .nilDereference
  | some ctx =>
    match ctx.Value .lambdaKey with
    | some (.lambdaPtr p) => .ok (p, true)
    | _ => .ok (none, false)

/-! ## Formatting (`fmt`) -/

/-- The text `fmt.Printf(format, args...)` writes, for formats whose only
verbs are `%s` and `%%` and whose operands are strings: a `%s` is replaced by
the next operand, copied as it is; `%%` is a percent sign; a `%s` with no
operand left prints `%!s(MISSING)`; operands left over are reported at the
end; every other character is copied. -/
def Sprintf : List Char → List String → List Char
  | [], [] => []
  | [], a :: args =>
    "%!(EXTRA ".data ++
      (", ".data).intercalate ((a :: args).map fun s => "string=".data ++ s.data) ++ [')']
  | '%' :: 's' :: rest, a :: args => a.data ++ Sprintf rest args
  | '%' :: 's' :: rest, [] => "%!s(MISSING)".data ++ Sprintf rest []
  | '%' :: '%' :: rest, args => '%' :: Sprintf rest args
  | c :: rest, args => c :: Sprintf rest args

/-! ## The handler -/

/-- How a call of the handler ends. -/
inductive Completion where
  | returned (err : Option String)
  | panicked (p : Panic)
  deriving DecidableEq, Repr

/-- What a call of the handler can be observed to do: the text written to
standard output and how the call ends. -/
structure Outcome where
  stdout : String
  completion : Completion
  deriving DecidableEq, Repr

/-- The function `handler` of `main.go`.  The `ok` result of `FromContext` is
discarded; `lc.AwsRequestID` is evaluated before `fmt.Printf` is called and
panics on the nil pointer; the only `return` returns `nil`. -/
def handler (ctx : Option Context) : Outcome :=
  match FromContext ctx with
  | .error p => ⟨"", .panicked p⟩
  | .ok (lc, _) =>
    match lc with
    | none => ⟨"", .panicked .nilDereference⟩
    | some l => ⟨⟨Sprintf "Hello %sn\n".data [l.AwsRequestID]⟩, .returned none⟩

/-! ## Lines of a text -/

/-- The lines of a text: every newline ends a line, and what follows the last
newline is a line when it is not empty. -/
def lines : List Char → List (List Char)
  | [] => []
  | c :: rest =>
    if c = '\n' then [] :: lines rest
    else
      match lines rest with
      | [] => [[c]]
      | l :: ls => (c :: l) :: ls


/-! ## Sample inputs -/

/-- A Lambda context with request identifier `id` and every other field empty. -/
def sampleLambdaContext (id : String) : LambdaContext :=
  ⟨id, "", ⟨"", ""⟩, ⟨⟨"", "", "", ""⟩, [], []⟩⟩

/-- A Lambda context with request identifier `id` and every other field set. -/
def otherLambdaContext (id : String) : LambdaContext :=
  ⟨id, "arn:aws:lambda:eu-central-1:1:function:checker", ⟨"me", "pool"⟩,
    ⟨⟨"inst", "app", "7", "pkg"⟩, [("stage", "live")], [("k", "v")]⟩⟩

/-- The context the Lambda host builds around `lc`: a deadline and the value. -/
def hostContext (lc : LambdaContext) : Option Context :=
  some (NewContext (.withDeadline .background 1730000000000) (some lc))

/-- A context that carries `lc` under further values and without a deadline. -/
def wrappedContext (lc : LambdaContext) : Option Context :=
  some (.withValue (NewContext .background (some lc)) (.other "user") (.other "alice"))

/-! ## The format of the handler -/

/-- The format string of the handler, applied to one operand, yields the
greeting, the operand, the letter `n` and a newline. -/
theorem Sprintf_hello (id : String) :
    Sprintf "Hello %sn\n".data [id] = "Hello ".data ++ id.data ++ ['n', '\n'] := by
  simp [Sprintf]

/-- The handler on a context in which the lookup finds a Lambda context. -/
theorem handler_of_found (ctx : Option Context) (lc : LambdaContext)
    (h : FromContext ctx = .ok (some lc, true)) :
    handler ctx = ⟨"Hello " ++ lc.AwsRequestID ++ "n\n", .returned none⟩ := by
  have hs : (⟨Sprintf "Hello %sn\n".data [lc.AwsRequestID]⟩ : String)
      = "Hello " ++ lc.AwsRequestID ++ "n\n" := by
    apply String.ext
    show Sprintf "Hello %sn\n".data [lc.AwsRequestID] = _
    rw [Sprintf_hello]
    simp
  simp only [handler, h, hs]

/-- The handler on a context from which `FromContext` yields no Lambda
context: the nil context, a failed lookup, or a stored nil pointer. -/
theorem handler_of_not_found (ctx : Option Context)
    (h : ∀ lc b, FromContext ctx ≠ .ok (some lc, b)) :
    handler ctx = ⟨"", .panicked .nilDereference⟩ := by
  cases ctx with
  | none => rfl
  | some c =>
    cases hv : c.Value .lambdaKey with
    | none => simp [handler, FromContext, hv]
    | some v =>
      cases v with
      | lambdaPtr p =>
        cases p with
        | none => simp [handler, FromContext, hv]
        | some lc => exact absurd (by simp [FromContext, hv]) (h lc true)
      | other w => simp [handler, FromContext, hv]

/-- Where `FromContext` yields no Lambda context, it either panics itself, on
the nil context, or returns the nil pointer. -/
theorem FromContext_of_not_found (ctx : Option Context)
    (h : ∀ lc b, FromContext ctx ≠ .ok (some lc, b)) :
    (ctx = none ∧ FromContext ctx = .error .nilDereference) ∨
      (ctx ≠ none ∧ ∃ b, FromContext ctx = .ok (none, b)) := by
  cases ctx with
  | none => exact .inl ⟨rfl, rfl⟩
  | some c =>
    refine .inr ⟨by simp, ?_⟩
    cases hv : c.Value .lambdaKey with
    | none => exact ⟨false, by simp [FromContext, hv]⟩
    | some v =>
      cases v with
      | lambdaPtr p =>
        cases p with
        | none => exact ⟨true, by simp [FromContext, hv]⟩
        | some lc => exact absurd (by simp [FromContext, hv]) (h lc true)
      | other w => exact ⟨false, by simp [FromContext, hv]⟩

/-- The lines of a text without a newline, ended by one newline, are that text. -/
theorem lines_terminated (l : List Char) (h : '\n' ∉ l) : lines (l ++ ['\n']) = [l] := by
  induction l with
  | nil => simp [lines]
  | cons c t ih =>
    have hc : c ≠ '\n' := fun e => h (by simp [e])
    have ht : '\n' ∉ t := fun e => h (by simp [e])
    simp [lines, hc, ih ht]

/-- The one line the handler writes for a request identifier without a newline. -/
theorem lines_of_found (ctx : Option Context) (lc : LambdaContext)
    (h : FromContext ctx = .ok (some lc, true)) (hnl : '\n' ∉ lc.AwsRequestID.data) :
    lines (handler ctx).stdout.data = ["Hello ".data ++ lc.AwsRequestID.data ++ ['n']] := by
  rw [handler_of_found ctx lc h]
  have hd : ("Hello " ++ lc.AwsRequestID ++ "n\n" : String).data
      = ("Hello ".data ++ lc.AwsRequestID.data ++ ['n']) ++ ['\n'] := by simp
  have hno : '\n' ∉ "Hello ".data ++ lc.AwsRequestID.data ++ ['n'] := by
    simp only [List.mem_append, not_or]
    exact ⟨⟨by decide, hnl⟩, by decide⟩
  show lines ("Hello " ++ lc.AwsRequestID ++ "n\n" : String).data = _
  rw [hd, lines_terminated _ hno]

/-! ## C1: contexts in which the lookup fails -/

/-- C1, as stated, fails: on `context.Background()` the lookup finds nothing,
and the handler neither returns nor writes a text that starts with `Hello `. -/
theorem C1_counterexample :
    FromContext (some .background) = .ok (none, false) ∧
      ¬ ((handler (some .background)).completion = .returned none ∧
          "Hello ".data <+: (handler (some .background)).stdout.data) := by
  decide

/-- C1, amended: on every context from which `FromContext` yields no Lambda
context (the lookup fails, as on `context.Background()`; or the context is nil;
or the pointer stored in it is nil) the handler writes nothing and ends in a
nil-pointer panic instead of returning.  The panic is raised inside
`FromContext` when the context is nil, and where `lc.AwsRequestID` is read
through the nil pointer that `FromContext` returned otherwise. -/
theorem C1_lookup_failure_panics (ctx : Option Context)
    (h : ∀ lc b, FromContext ctx ≠ .ok (some lc, b)) :
    (handler ctx).stdout = "" ∧ (handler ctx).completion = .panicked .nilDereference ∧
      ((ctx = none ∧ FromContext ctx = .error .nilDereference) ∨
        (ctx ≠ none ∧ ∃ b, FromContext ctx = .ok (none, b))) := by
  rw [handler_of_not_found ctx h]
  exact ⟨rfl, rfl, FromContext_of_not_found ctx h⟩

/-- C1, amended, at `context.Background()`, where the lookup fails. -/
theorem C1_lookup_failure_panics_witness :
    (∀ lc b, FromContext (some .background) ≠ .ok (some lc, b)) ∧
      FromContext (some .background) = .ok (none, false) ∧
      (handler (some .background)).stdout = "" ∧
      (handler (some .background)).completion = .panicked .nilDereference :=
  ⟨by intro lc b; simp [FromContext, Context.Value], by decide,
    (C1_lookup_failure_panics (some .background)
      (by intro lc b; simp [FromContext, Context.Value])).1,
    (C1_lookup_failure_panics (some .background)
      (by intro lc b; simp [FromContext, Context.Value])).2.1⟩

/-- The amended C1 covers the nil context, where `FromContext` panics. -/
theorem handler_nil_context :
    FromContext none = .error .nilDereference ∧
      handler none = ⟨"", .panicked .nilDereference⟩ := by
  decide

/-- The amended C1 covers a context that stores the nil pointer, where the
lookup succeeds and the handler panics all the same. -/
theorem handler_nil_pointer :
    FromContext (some (NewContext .background none)) = .ok (none, true) ∧
      handler (some (NewContext .background none)) = ⟨"", .panicked .nilDereference⟩ := by
  decide

/-! ## C2: the text written -/

/-- C2, as stated, fails: for the request identifier `abc-123` the text
written is not `Hello abc-123n`, a newline follows it. -/
theorem C2_counterexample :
    FromContext (hostContext (sampleLambdaContext "abc-123"))
        = .ok (some (sampleLambdaContext "abc-123"), true) ∧
      (handler (hostContext (sampleLambdaContext "abc-123"))).stdout ≠ "Hello abc-123n" ∧
      (handler (hostContext (sampleLambdaContext "abc-123"))).stdout = "Hello abc-123n\n" := by
  decide

/-- C2, amended: for every context that carries a Lambda context with request
identifier `id`, the text written is `Hello `, then `id`, then the letter `n`,
then one newline. -/
theorem C2_output_text (ctx : Option Context) (lc : LambdaContext)
    (h : FromContext ctx = .ok (some lc, true)) :
    (handler ctx).stdout = "Hello " ++ lc.AwsRequestID ++ "n" ++ "\n" := by
  rw [handler_of_found ctx lc h]
  apply String.ext
  simp

/-- C2, amended, at the empty request identifier: the text is `Hello n` and a
newline. -/
theorem C2_output_text_witness :
    FromContext (hostContext (sampleLambdaContext ""))
        = .ok (some (sampleLambdaContext ""), true) ∧
      (handler (hostContext (sampleLambdaContext ""))).stdout = "Hello n\n" :=
  ⟨by decide, C2_output_text (hostContext (sampleLambdaContext "")) (sampleLambdaContext "")
    (by decide)⟩

/-! ## C3: the returned error -/

/-- C3, as stated, fails: on a context that carries only a value of the caller
the handler does not return `nil`, it does not return. -/
theorem C3_counterexample :
    (handler (some (.withValue .background (.other "user") (.other "alice")))).completion
      ≠ .returned none := by
  decide

/-- C3, amended: the handler returns `nil` on every context that carries a
Lambda context, and on no context at all does it return an error. -/
theorem C3_returns_nil (ctx : Option Context) (lc : LambdaContext)
    (h : FromContext ctx = .ok (some lc, true)) :
    (handler ctx).completion = .returned none ∧
      ∀ (c : Option Context) (e : String), (handler c).completion ≠ .returned (some e) := by
  refine ⟨by rw [handler_of_found ctx lc h], ?_⟩
  intro c e
  unfold handler
  split
  · simp
  · split <;> simp

/-- C3, amended, at a context that carries the Lambda context under a further
value. -/
theorem C3_returns_nil_witness :
    FromContext (wrappedContext (otherLambdaContext "r-1"))
        = .ok (some (otherLambdaContext "r-1"), true) ∧
      (handler (wrappedContext (otherLambdaContext "r-1"))).completion = .returned none :=
  ⟨by decide, (C3_returns_nil (wrappedContext (otherLambdaContext "r-1"))
    (otherLambdaContext "r-1") (by decide)).1⟩

/-! ## C4: the request identifier in the text -/

/-- C4: for every context that carries a Lambda context with a non-empty
request identifier, the text written holds that identifier as a contiguous
piece, character for character: the text is `Hello `, the identifier, and a
rest, whatever characters the identifier is made of. -/
theorem C4_output_contains_id (ctx : Option Context) (lc : LambdaContext)
    (h : FromContext ctx = .ok (some lc, true)) (hne : lc.AwsRequestID ≠ "") :
    (∃ pre post : String, (handler ctx).stdout = pre ++ lc.AwsRequestID ++ post) ∧
      lc.AwsRequestID.data <:+: (handler ctx).stdout.data := by
  have _ := hne
  rw [handler_of_found ctx lc h]
  refine ⟨⟨"Hello ", "n\n", rfl⟩, ?_⟩
  refine ⟨"Hello ".data, "n\n".data, ?_⟩
  simp

/-- C4 at a request identifier made of format characters. -/
theorem C4_output_contains_id_witness :
    FromContext (hostContext (sampleLambdaContext "100%s%d%%"))
        = .ok (some (sampleLambdaContext "100%s%d%%"), true) ∧
      (sampleLambdaContext "100%s%d%%").AwsRequestID ≠ "" ∧
      (handler (hostContext (sampleLambdaContext "100%s%d%%"))).stdout = "Hello 100%s%d%%n\n" ∧
      (sampleLambdaContext "100%s%d%%").AwsRequestID.data
        <:+: (handler (hostContext (sampleLambdaContext "100%s%d%%"))).stdout.data :=
  ⟨by decide, by decide, by decide,
    (C4_output_contains_id (hostContext (sampleLambdaContext "100%s%d%%"))
      (sampleLambdaContext "100%s%d%%") (by decide) (by decide)).2⟩

/-! ## C5: the number of lines -/

/-- C5, as stated, fails: a request identifier with a newline in it makes the
handler write two lines. -/
theorem C5_counterexample :
    FromContext (hostContext (sampleLambdaContext "a\nb"))
        = .ok (some (sampleLambdaContext "a\nb"), true) ∧
      lines (handler (hostContext (sampleLambdaContext "a\nb"))).stdout.data
        = ["Hello a".data, "bn".data] ∧
      (lines (handler (hostContext (sampleLambdaContext "a\nb"))).stdout.data).length ≠ 1 := by
  decide

/-- C5, amended: for every context that carries a Lambda context whose request
identifier holds no newline, the text written is exactly one line, the line
`Hello `, identifier, `n`. -/
theorem C5_one_line (ctx : Option Context) (lc : LambdaContext)
    (h : FromContext ctx = .ok (some lc, true)) (hnl : '\n' ∉ lc.AwsRequestID.data) :
    lines (handler ctx).stdout.data = [("Hello " ++ lc.AwsRequestID ++ "n").data] ∧
      (lines (handler ctx).stdout.data).length = 1 := by
  rw [handler_of_found ctx lc h]
  have hd : ("Hello " ++ lc.AwsRequestID ++ "n\n" : String).data
      = ("Hello " ++ lc.AwsRequestID ++ "n").data ++ ['\n'] := by simp
  have hno : '\n' ∉ ("Hello " ++ lc.AwsRequestID ++ "n" : String).data := by
    simp only [String.data_append, List.mem_append, not_or]
    exact ⟨⟨by decide, hnl⟩, by decide⟩
  show lines ("Hello " ++ lc.AwsRequestID ++ "n\n" : String).data = _ ∧ _
  rw [hd, lines_terminated _ hno]
  exact ⟨rfl, rfl⟩

/-- C5, amended, at the request identifier `abc-123`. -/
theorem C5_one_line_witness :
    FromContext (hostContext (sampleLambdaContext "abc-123"))
        = .ok (some (sampleLambdaContext "abc-123"), true) ∧
      '\n' ∉ (sampleLambdaContext "abc-123").AwsRequestID.data ∧
      lines (handler (hostContext (sampleLambdaContext "abc-123"))).stdout.data
        = ["Hello abc-123n".data] :=
  ⟨by decide, by decide,
    (C5_one_line (hostContext (sampleLambdaContext "abc-123")) (sampleLambdaContext "abc-123")
      (by decide) (by decide)).1⟩

/-! ## C6: what follows the request identifier -/

/-- C6, as stated, fails: for the request identifier `abc-123` the text written
does not end with the letter `n`; its last character is a newline. -/
theorem C6_counterexample :
    FromContext (wrappedContext (sampleLambdaContext "abc-123"))
        = .ok (some (sampleLambdaContext "abc-123"), true) ∧
      (handler (wrappedContext (sampleLambdaContext "abc-123"))).stdout.data.getLast? ≠ some 'n' ∧
      (handler (wrappedContext (sampleLambdaContext "abc-123"))).stdout.data.getLast?
        = some '\n' := by
  decide

/-- C6, amended: for every context that carries a Lambda context, what the
handler writes after the request identifier is the letter `n` and then one
newline: the text ends with a newline, and the character before it is `n`. -/
theorem C6_suffix (ctx : Option Context) (lc : LambdaContext)
    (h : FromContext ctx = .ok (some lc, true)) :
    (handler ctx).stdout.data = "Hello ".data ++ lc.AwsRequestID.data ++ ['n', '\n'] ∧
      (handler ctx).stdout.data.getLast? = some '\n' ∧
      (handler ctx).stdout.data.dropLast.getLast? = some 'n' := by
  rw [handler_of_found ctx lc h]
  have hd : ("Hello " ++ lc.AwsRequestID ++ "n\n" : String).data
      = ("Hello ".data ++ lc.AwsRequestID.data ++ ['n']) ++ ['\n'] := by simp
  refine ⟨by simp, ?_, ?_⟩
  · show ("Hello " ++ lc.AwsRequestID ++ "n\n" : String).data.getLast? = _
    rw [hd, List.getLast?_append]
    rfl
  · show ("Hello " ++ lc.AwsRequestID ++ "n\n" : String).data.dropLast.getLast? = _
    rw [hd, List.dropLast_concat, List.getLast?_append]
    rfl

/-- C6, amended, at the empty request identifier. -/
theorem C6_suffix_witness :
    FromContext (wrappedContext (sampleLambdaContext ""))
        = .ok (some (sampleLambdaContext ""), true) ∧
      (handler (wrappedContext (sampleLambdaContext ""))).stdout.data
        = "Hello ".data ++ (sampleLambdaContext "").AwsRequestID.data ++ ['n', '\n'] :=
  ⟨by decide, (C6_suffix (wrappedContext (sampleLambdaContext "")) (sampleLambdaContext "")
    (by decide)).1⟩

/-! ## C7: the text determines the request identifier -/

/-- C7, as stated, fails: the request identifiers `x` and `xn\nHello y` differ,
and the line `Hello xn` is written for both, so that line cannot be attributed
to one request. -/
theorem C7_counterexample :
    FromContext (hostContext (sampleLambdaContext "x"))
        = .ok (some (sampleLambdaContext "x"), true) ∧
      FromContext (hostContext (sampleLambdaContext "xn\nHello y"))
        = .ok (some (sampleLambdaContext "xn\nHello y"), true) ∧
      (sampleLambdaContext "x").AwsRequestID ≠ (sampleLambdaContext "xn\nHello y").AwsRequestID ∧
      "Hello xn".data ∈ lines (handler (hostContext (sampleLambdaContext "x"))).stdout.data ∧
      "Hello xn".data
        ∈ lines (handler (hostContext (sampleLambdaContext "xn\nHello y"))).stdout.data := by
  decide

/-- C7, amended: two contexts that carry Lambda contexts with different request
identifiers make the handler write different texts; and when neither
identifier holds a newline, no line written for the one is a line written for
the other, so that a line is attributed to one request. -/
theorem C7_output_injective (ctx₁ ctx₂ : Option Context) (lc₁ lc₂ : LambdaContext)
    (h₁ : FromContext ctx₁ = .ok (some lc₁, true))
    (h₂ : FromContext ctx₂ = .ok (some lc₂, true))
    (hne : lc₁.AwsRequestID ≠ lc₂.AwsRequestID) :
    (handler ctx₁).stdout ≠ (handler ctx₂).stdout ∧
      ('\n' ∉ lc₁.AwsRequestID.data → '\n' ∉ lc₂.AwsRequestID.data →
        ∀ l, l ∈ lines (handler ctx₁).stdout.data → l ∉ lines (handler ctx₂).stdout.data) := by
  constructor
  · rw [handler_of_found ctx₁ lc₁ h₁, handler_of_found ctx₂ lc₂ h₂]
    intro he
    apply hne
    have hd := congrArg String.data he
    simp only [String.data_append, List.append_assoc] at hd
    exact String.ext (List.append_cancel_right (List.append_cancel_left hd))
  · intro hn₁ hn₂ l hl₁ hl₂
    rw [lines_of_found ctx₁ lc₁ h₁ hn₁, List.mem_singleton] at hl₁
    rw [lines_of_found ctx₂ lc₂ h₂ hn₂, List.mem_singleton] at hl₂
    apply hne
    have hd := hl₁.symm.trans hl₂
    simp only [List.append_assoc] at hd
    exact String.ext (List.append_cancel_right (List.append_cancel_left hd))

/-- C7, amended, at two request identifiers of which one is the other with an
`n` added. -/
theorem C7_output_injective_witness :
    FromContext (hostContext (sampleLambdaContext "r"))
        = .ok (some (sampleLambdaContext "r"), true) ∧
      FromContext (wrappedContext (sampleLambdaContext "rn"))
        = .ok (some (sampleLambdaContext "rn"), true) ∧
      (sampleLambdaContext "r").AwsRequestID ≠ (sampleLambdaContext "rn").AwsRequestID ∧
      (handler (hostContext (sampleLambdaContext "r"))).stdout
        ≠ (handler (wrappedContext (sampleLambdaContext "rn"))).stdout ∧
      "Hello rn".data
        ∉ lines (handler (wrappedContext (sampleLambdaContext "rn"))).stdout.data :=
  ⟨by decide, by decide, by decide,
    (C7_output_injective (hostContext (sampleLambdaContext "r"))
      (wrappedContext (sampleLambdaContext "rn")) (sampleLambdaContext "r")
      (sampleLambdaContext "rn") (by decide) (by decide) (by decide)).1,
    (C7_output_injective (hostContext (sampleLambdaContext "r"))
      (wrappedContext (sampleLambdaContext "rn")) (sampleLambdaContext "r")
      (sampleLambdaContext "rn") (by decide) (by decide) (by decide)).2
      (by decide) (by decide) "Hello rn".data (by decide)⟩

/-! ## C8: nothing but the request identifier is observed -/

/-- C8: two contexts that carry Lambda contexts with the same request
identifier make the handler write the same text and end in the same way,
whatever the other fields of the Lambda contexts and the other values and
deadlines of the contexts are. -/
theorem C8_depends_on_id_only (ctx₁ ctx₂ : Option Context) (lc₁ lc₂ : LambdaContext)
    (h₁ : FromContext ctx₁ = .ok (some lc₁, true))
    (h₂ : FromContext ctx₂ = .ok (some lc₂, true))
    (heq : lc₁.AwsRequestID = lc₂.AwsRequestID) :
    (handler ctx₁).stdout = (handler ctx₂).stdout ∧
      (handler ctx₁).completion = (handler ctx₂).completion := by
  rw [handler_of_found ctx₁ lc₁ h₁, handler_of_found ctx₂ lc₂ h₂, heq]
  exact ⟨rfl, rfl⟩

/-- C8 at two contexts that agree on the request identifier and on nothing
else. -/
theorem C8_depends_on_id_only_witness :
    FromContext (hostContext (sampleLambdaContext "abc-123"))
        = .ok (some (sampleLambdaContext "abc-123"), true) ∧
      FromContext (wrappedContext (otherLambdaContext "abc-123"))
        = .ok (some (otherLambdaContext "abc-123"), true) ∧
      hostContext (sampleLambdaContext "abc-123") ≠ wrappedContext (otherLambdaContext "abc-123") ∧
      (handler (hostContext (sampleLambdaContext "abc-123"))).stdout
        = (handler (wrappedContext (otherLambdaContext "abc-123"))).stdout ∧
      (handler (hostContext (sampleLambdaContext "abc-123"))).completion
        = (handler (wrappedContext (otherLambdaContext "abc-123"))).completion :=
  ⟨by decide, by decide, by decide,
    C8_depends_on_id_only (hostContext (sampleLambdaContext "abc-123"))
      (wrappedContext (otherLambdaContext "abc-123")) (sampleLambdaContext "abc-123")
      (otherLambdaContext "abc-123") (by decide) (by decide) rfl⟩

end CertificateChecker
